import Mathlib

/-
Verification of the Steam status monitor plugin (src/main.py).

The Python source is shallowly embedded: the fixed endpoint table, the
prober's boolean collapse, the per-tick diff over `last_status`, the
monitor loop's try/except tick structure, the per-recipient dispatch
loop, and the permission-gated `steamstatus` query handler are all
translated to executable Lean definitions.  External effects (HTTP
responses, the notifier, config reads) are passed in as explicit
function or `Except` arguments.
-/

namespace SteamStatus

/-- A Python scalar value as it occurs in the plugin's configuration
lists (group IDs may be configured as strings or as integers).  `str()`
conversion is modelled by `pyStr`. -/
inductive PyVal where
  | str (s : String)
  | int (n : Int)
  deriving DecidableEq

/-- Python `str(v)` for the values of `PyVal`. -/
def pyStr : PyVal → String
  | PyVal.str s => s
  | PyVal.int n => toString n

/-- The fixed endpoint table `self.targets` (main.py lines 13-17),
in insertion order: display name paired with URL. -/
def targets : List (String × String) :=
  [("Steam 商店", "https://store.steampowered.com"),
   ("Steam 社区", "https://steamcommunity.com"),
   ("Steam API", "https://api.steampowered.com/ISteamWebAPIUtil/GetServerInfo/v1/")]

/-- `list(self.targets.keys())`. -/
def targetNames : List String := targets.map Prod.fst

/-- `list(self.targets.values())`. -/
def targetUrls : List String := targets.map Prod.snd

/-- `self.last_status = {name: True for name in self.targets}`
(main.py line 18): every endpoint starts out recorded as reachable. -/
def initialStatus : String → Bool := fun _ => true

/-- Python `s.strip()`: drop leading and trailing whitespace.  (Defined
over the character list so that it evaluates by kernel reduction;
`String.trim` in core is defined through well-founded recursion.) -/
def pyStrip (s : String) : String :=
  ⟨((((s.data.dropWhile Char.isWhitespace).reverse).dropWhile Char.isWhitespace).reverse)⟩

/-- `fetch_status` (main.py lines 43-50).  The outcome of
`self.client.get(url)` is passed in: `Except.ok code` for a received
response with status `code`, `Except.error e` for any raised exception
(transport error, timeout, ...).  The function is total — the
`except Exception: return False` clause means no error ever escapes. -/
def fetch_status (resp : Except String Nat) : Bool :=
  match resp with
  | Except.ok response => decide (200 ≤ response) && decide (response < 400)
  | Except.error _ => false

/-- Outcome of the inline permission check in `on_steam_status`
(main.py lines 126-147).  Each denial constructor corresponds to one
`return`-with-log branch of the source. -/
inductive GateResult where
  | deniedEmptyWhitelist
  | deniedNotInWhitelist
  | deniedInBlacklist
  | permitted
  deriving DecidableEq

/-- The permission check of `on_steam_status` (main.py lines 126-147):
`permission_groups = [str(g) for g in raw_groups]`,
`current_id = str(event.unified_msg_origin)`; whitelist mode denies on
an empty list or a missing member, any other mode (the `else` branch)
denies exactly the listed members. -/
def gateResult (mode : PyVal) (raw_groups : List PyVal) (origin : PyVal) : GateResult :=
  let permission_groups := raw_groups.map pyStr
  let current_id := pyStr origin
  if mode = PyVal.str "whitelist" then
    if permission_groups.isEmpty then GateResult.deniedEmptyWhitelist
    else if current_id ∉ permission_groups then GateResult.deniedNotInWhitelist
    else GateResult.permitted
  else
    if current_id ∈ permission_groups then GateResult.deniedInBlacklist
    else GateResult.permitted

/-- Whether the permission check lets the request through. -/
def permittedB (mode : PyVal) (raw_groups : List PyVal) (origin : PyVal) : Bool :=
  decide (gateResult mode raw_groups origin = GateResult.permitted)

/-- Claim C2: `fetch_status` returns `true` exactly when a response was
received with status code in [200, 400); any raised error and any status
outside that range yield `false`.  Totality of the Lean function models
that no error propagates to the caller. -/
theorem fetch_status_spec :
    (∀ resp : Except String Nat,
      fetch_status resp = true ↔ ∃ code, resp = Except.ok code ∧ 200 ≤ code ∧ code < 400)
    ∧ (∀ e : String, fetch_status (Except.error e) = false) := by
  constructor
  · intro resp
    cases resp with
    | ok code => simp [fetch_status]
    | error e => simp [fetch_status]
  · intro e
    rfl

/-- Claim C3: in whitelist mode the check permits an identity iff the
configured group list is non-empty and the (stringified) identity is a
member, an empty whitelist denying everyone through the dedicated
warning branch; in blacklist mode it permits iff the identity is not a
member, so an empty blacklist permits everyone. -/
theorem permission_modes_spec (raw_groups : List PyVal) (origin : PyVal) :
    (permittedB (PyVal.str "whitelist") raw_groups origin = true ↔
      raw_groups ≠ [] ∧ pyStr origin ∈ raw_groups.map pyStr)
    ∧ gateResult (PyVal.str "whitelist") [] origin = GateResult.deniedEmptyWhitelist
    ∧ (permittedB (PyVal.str "blacklist") raw_groups origin = true ↔
      pyStr origin ∉ raw_groups.map pyStr) := by
  refine ⟨?_, rfl, ?_⟩
  · by_cases hempty : raw_groups = []
    · subst hempty
      simp [permittedB, gateResult]
    · by_cases hmem : pyStr origin ∈ raw_groups.map pyStr
      · simp [permittedB, gateResult, hempty, hmem, List.isEmpty_iff]
      · simp [permittedB, gateResult, hempty, hmem, List.isEmpty_iff]
  · by_cases hmem : pyStr origin ∈ raw_groups.map pyStr
    · simp [permittedB, gateResult, hmem]
    · simp [permittedB, gateResult, hmem]

/-- Claim C4 counterexample: the untrimmed identity `"123 "` does NOT
match the configured entry `"123"` — the permission check stringifies
but never trims, so a whitelist holding exactly `"123"` denies the
identity `"123 "`; trimming (which the claim asserts) would have made
the two equal. -/
theorem permission_trim_refuted :
    gateResult (PyVal.str "whitelist") [PyVal.str "123"] (PyVal.str "123 ")
      ≠ GateResult.permitted
    ∧ pyStrip (pyStr (PyVal.str "123 ")) = pyStr (PyVal.str "123") := by
  exact ⟨by decide, by decide⟩

/-- Claim C4 (amended): permission membership is exact string equality
after stringifying (`str()`) both the configured entry and the incoming
identity, with no trimming: a singleton whitelist permits exactly the
identities whose stringified form equals the entry's, and a singleton
blacklist denies exactly those. -/
theorem permission_membership_untrimmed (g origin : PyVal) :
    (permittedB (PyVal.str "whitelist") [g] origin = true ↔ pyStr origin = pyStr g)
    ∧ (permittedB (PyVal.str "blacklist") [g] origin = true ↔ pyStr origin ≠ pyStr g) := by
  constructor
  · by_cases h : pyStr origin = pyStr g
    · simp [permittedB, gateResult, h]
    · simp [permittedB, gateResult, h]
  · by_cases h : pyStr origin = pyStr g
    · simp [permittedB, gateResult, h]
    · simp [permittedB, gateResult, h]

/-- Claim C10: any `permission_mode` other than the exact string
`"whitelist"` (typos, other strings, non-string values) takes the
`else` branch and behaves as blacklist mode: every identity not listed
is permitted. -/
theorem nonwhitelist_mode_is_blacklist (mode : PyVal) (raw_groups : List PyVal)
    (origin : PyVal) (h : mode ≠ PyVal.str "whitelist") :
    permittedB mode raw_groups origin = true ↔ pyStr origin ∉ raw_groups.map pyStr := by
  by_cases hmem : pyStr origin ∈ raw_groups.map pyStr
  · simp [permittedB, gateResult, h, hmem]
  · simp [permittedB, gateResult, h, hmem]

/-- Claim C10 witness: the misconfigured mode value `7` (an integer,
not `"whitelist"`) fails open for an identity not in the group list. -/
theorem nonwhitelist_mode_is_blacklist_instance :
    permittedB (PyVal.int 7) [PyVal.str "123"] (PyVal.str "9") = true ↔
      pyStr (PyVal.str "9") ∉ [PyVal.str "123"].map pyStr :=
  nonwhitelist_mode_is_blacklist (PyVal.int 7) [PyVal.str "123"] (PyVal.str "9") (by decide)

/-- The per-tick diff of `monitor_loop` (main.py lines 88-92): iterate
over `zip(names, results)`; whenever the fresh verdict differs from the
stored `last_status[name]`, record a change `(name, verdict)` and update
the stored value, threading the updated mapping through the rest of the
iteration exactly as the dict mutation does. -/
def diffTick (st : String → Bool) : List (String × Bool) → List (String × Bool) × (String → Bool)
  | [] => ([], st)
  | (name, current_is_ok) :: rest =>
    if current_is_ok ≠ st name then
      let st1 : String → Bool := fun m => if m = name then current_is_ok else st m
      let r := diffTick st1 rest
      ((name, current_is_ok) :: r.1, r.2)
    else
      diffTick st rest

/-- The `zip(names, results)` pair list for one tick, with the verdict
for each endpoint name given by `v`. -/
def targetPairs (v : String → Bool) : List (String × Bool) :=
  targetNames.map (fun n => (n, v n))

/-- The recorded `last_status` mapping after `k` ticks of the diff,
fed the verdict functions `vs` tick by tick, starting from the
optimistic initial mapping. -/
def statusAfter (vs : List (String → Bool)) : Nat → (String → Bool)
  | 0 => initialStatus
  | k + 1 => (diffTick (statusAfter vs k) (targetPairs (vs.getD k (fun _ => true)))).2

/-- The change list (`changes`) produced on tick `k`. -/
def emissionsAt (vs : List (String → Bool)) (k : Nat) : List (String × Bool) :=
  (diffTick (statusAfter vs k) (targetPairs (vs.getD k (fun _ => true)))).1

/-- The verdict recorded for endpoint `E` before tick `k`: the initial
optimistic `true` on tick 0, the previous tick's verdict afterwards. -/
def prevVerdict (vs : List (String → Bool)) (k : Nat) (E : String) : Bool :=
  match k with
  | 0 => true
  | j + 1 => vs.getD j (fun _ => true) E

theorem targetNames_nodup : targetNames.Nodup := by decide

/-- Reduction of the diff on a changed head entry: the change is
recorded and the stored value of that name is updated before the rest
of the iteration (change-list component). -/
theorem diffTick_cons_pos_fst (st : String → Bool) (name : String) (ok : Bool)
    (rest : List (String × Bool)) (h : ok ≠ st name) :
    (diffTick st ((name, ok) :: rest)).1
      = (name, ok) :: (diffTick (fun m => if m = name then ok else st m) rest).1 := by
  simp [diffTick, h]

/-- Reduction of the diff on a changed head entry (state component). -/
theorem diffTick_cons_pos_snd (st : String → Bool) (name : String) (ok : Bool)
    (rest : List (String × Bool)) (h : ok ≠ st name) :
    (diffTick st ((name, ok) :: rest)).2
      = (diffTick (fun m => if m = name then ok else st m) rest).2 := by
  simp [diffTick, h]

/-- Reduction of the diff on an unchanged head entry: nothing is
recorded and the state is untouched. -/
theorem diffTick_cons_neg (st : String → Bool) (name : String) (ok : Bool)
    (rest : List (String × Bool)) (h : ok = st name) :
    diffTick st ((name, ok) :: rest) = diffTick st rest := by
  simp [diffTick, h]

/-- After one diff pass over distinct names, the stored value of every
listed name is the fresh verdict and every other name is untouched. -/
theorem diffTick_state (v : String → Bool) :
    ∀ (ns : List String) (st : String → Bool), ns.Nodup →
      ∀ m, (diffTick st (ns.map (fun n => (n, v n)))).2 m
        = if m ∈ ns then v m else st m := by
  intro ns
  induction ns with
  | nil =>
    intro st _ m
    simp [diffTick]
  | cons n ns ih =>
    intro st hnd m
    have hn : n ∉ ns := (List.nodup_cons.mp hnd).1
    have hns : ns.Nodup := (List.nodup_cons.mp hnd).2
    rw [List.map_cons]
    by_cases hv : v n = st n
    · rw [diffTick_cons_neg st n (v n) _ hv]
      rw [ih st hns m]
      by_cases hm : m ∈ ns
      · simp [hm]
      · by_cases hmn : m = n
        · subst hmn
          simp [hm, hv]
        · simp [hm, hmn]
    · rw [diffTick_cons_pos_snd st n (v n) _ hv]
      rw [ih (fun x => if x = n then v n else st x) hns m]
      by_cases hm : m ∈ ns
      · simp [hm]
      · by_cases hmn : m = n
        · subst hmn
          simp [hm]
        · simp [hm, hmn]

/-- Membership in the change list of one diff pass over distinct names:
a pair `(E, b)` is emitted iff `E` is listed, its fresh verdict differs
from the stored one, and `b` is the fresh verdict. -/
theorem diffTick_mem (v : String → Bool) :
    ∀ (ns : List String) (st : String → Bool), ns.Nodup →
      ∀ (E : String) (b : Bool),
        ((E, b) ∈ (diffTick st (ns.map (fun n => (n, v n)))).1 ↔
          E ∈ ns ∧ v E ≠ st E ∧ b = v E) := by
  intro ns
  induction ns with
  | nil =>
    intro st _ E b
    simp [diffTick]
  | cons n ns ih =>
    intro st hnd E b
    have hn : n ∉ ns := (List.nodup_cons.mp hnd).1
    have hns : ns.Nodup := (List.nodup_cons.mp hnd).2
    rw [List.map_cons]
    by_cases hv : v n = st n
    · rw [diffTick_cons_neg st n (v n) _ hv]
      rw [ih st hns E b]
      constructor
      · rintro ⟨hE, hne, hb⟩
        exact ⟨List.mem_cons_of_mem n hE, hne, hb⟩
      · rintro ⟨hE, hne, hb⟩
        rcases List.mem_cons.mp hE with h | h
        · subst h
          exact absurd hv hne
        · exact ⟨h, hne, hb⟩
    · rw [diffTick_cons_pos_fst st n (v n) _ hv]
      rw [List.mem_cons]
      rw [ih (fun x => if x = n then v n else st x) hns E b]
      constructor
      · rintro (hpair | ⟨hE, hne, hb⟩)
        · rw [Prod.mk.injEq] at hpair
          obtain ⟨hE, hb⟩ := hpair
          subst hE
          subst hb
          exact ⟨List.mem_cons_self E ns, hv, rfl⟩
        · have hEn : E ≠ n := fun h => hn (h ▸ hE)
          simp only [hEn, if_false, ite_false] at hne
          exact ⟨List.mem_cons_of_mem n hE, hne, hb⟩
      · rintro ⟨hE, hne, hb⟩
        rcases List.mem_cons.mp hE with h | h
        · subst h
          exact Or.inl (by rw [hb])
        · have hEn : E ≠ n := fun heq => hn (heq ▸ h)
          exact Or.inr ⟨h, by simpa [hEn] using hne, hb⟩

/-- The recorded value after tick `k` is tick `k`'s verdict, for every
configured endpoint. -/
theorem statusAfter_eq (vs : List (String → Bool)) (k : Nat) (E : String)
    (hE : E ∈ targetNames) :
    statusAfter vs (k + 1) E = vs.getD k (fun _ => true) E := by
  have h := diffTick_state (vs.getD k (fun _ => true)) targetNames (statusAfter vs k)
    targetNames_nodup E
  simp only [statusAfter, targetPairs]
  rw [h, if_pos hE]

/-- The recorded value before tick `k` is `prevVerdict`. -/
theorem statusAfter_prev (vs : List (String → Bool)) (k : Nat) (E : String)
    (hE : E ∈ targetNames) :
    statusAfter vs k E = prevVerdict vs k E := by
  cases k with
  | zero => rfl
  | succ j => exact statusAfter_eq vs j E hE

/-- Claim C1: across any sequence of per-tick verdict mappings, a
transition for endpoint `E` is emitted on tick `k` iff `E`'s tick-`k`
verdict differs from its previously recorded value (initially `true`),
the emitted transition carries the new verdict, and the recorded value
after tick `k` is the new verdict (so it is in place before tick
`k + 1`). -/
theorem transition_iff_changed (vs : List (String → Bool)) (k : Nat)
    (_hk : k < vs.length) (E : String) (hE : E ∈ targetNames) :
    ((∃ b, (E, b) ∈ emissionsAt vs k) ↔
      vs.getD k (fun _ => true) E ≠ prevVerdict vs k E)
    ∧ (∀ b, (E, b) ∈ emissionsAt vs k → b = vs.getD k (fun _ => true) E)
    ∧ statusAfter vs (k + 1) E = vs.getD k (fun _ => true) E := by
  have hmem := fun b => diffTick_mem (vs.getD k (fun _ => true)) targetNames
    (statusAfter vs k) targetNames_nodup E b
  have hprev := statusAfter_prev vs k E hE
  refine ⟨⟨?_, ?_⟩, ?_, statusAfter_eq vs k E hE⟩
  · rintro ⟨b, hb⟩
    have := (hmem b).mp (by simpa [emissionsAt, targetPairs] using hb)
    rw [← hprev]
    exact this.2.1
  · intro hne
    refine ⟨vs.getD k (fun _ => true) E, ?_⟩
    have := (hmem (vs.getD k (fun _ => true) E)).mpr ⟨hE, by rw [hprev]; exact hne, rfl⟩
    simpa [emissionsAt, targetPairs] using this
  · intro b hb
    have := (hmem b).mp (by simpa [emissionsAt, targetPairs] using hb)
    exact this.2.2

/-- Claim C1 witness: with a single tick whose verdicts are all `false`,
the Steam store endpoint (previously recorded `true`) gets a transition,
carrying `false`, and its recorded value becomes `false`. -/
theorem transition_iff_changed_instance :
    ((∃ b, ("Steam 商店", b) ∈ emissionsAt [fun _ => false] 0) ↔
      ([fun _ => false] : List (String → Bool)).getD 0 (fun _ => true) "Steam 商店"
        ≠ prevVerdict [fun _ => false] 0 "Steam 商店")
    ∧ (∀ b, ("Steam 商店", b) ∈ emissionsAt [fun _ => false] 0 →
        b = ([fun _ => false] : List (String → Bool)).getD 0 (fun _ => true) "Steam 商店")
    ∧ statusAfter [fun _ => false] 1 "Steam 商店"
        = ([fun _ => false] : List (String → Bool)).getD 0 (fun _ => true) "Steam 商店" :=
  transition_iff_changed [fun _ => false] 0 (by decide) "Steam 商店" (by decide)

/-- Observable side effects of the plugin: log lines at their levels,
an HTTP probe being issued, and a notification message delivered to a
target. -/
inductive Event where
  | logInfo (msg : String)
  | logWarn (msg : String)
  | logError (msg : String)
  | probe (url : String)
  | sendMsg (target : String) (text : String)
  deriving DecidableEq

/-- Whether an event is a log line (as opposed to a probe or an
outbound message). -/
def isLogEvent : Event → Bool
  | Event.logInfo _ => true
  | Event.logWarn _ => true
  | Event.logError _ => true
  | _ => false

/-- The per-recipient dispatch loop of `monitor_loop` (main.py lines
103-110): for each `unified_id` in the push list, log the attempt,
compute `target_id = str(unified_id).strip()` and send; a raised send
error is caught inside the loop body and logged with the recipient and
the cause, and iteration continues with the next recipient. -/
def dispatchAll (send : String → Except String Unit) (text : String) :
    List PyVal → List Event
  | [] => []
  | unified_id :: rest =>
    let target_id := pyStrip (pyStr unified_id)
    (Event.logInfo ("[SteamStatus] 正在推送消息到: " ++ pyStr unified_id) ::
      (match send target_id with
       | Except.ok _ => [Event.sendMsg target_id text]
       | Except.error e =>
         [Event.logError ("定时推送失败，目标: " ++ pyStr unified_id ++ "，错误: " ++ e)]))
    ++ dispatchAll send text rest

/-- Claim C6: a dispatch failure for one recipient neither blocks nor
aborts dispatch to the others — for every recipient in the push list,
if its own send succeeds the notice is delivered to it, and if its own
send fails the failure is logged with the recipient identifier and the
underlying cause, independently of every other recipient's outcome
(the sender behaviour `send` is arbitrary). -/
theorem dispatch_isolation (send : String → Except String Unit) (text : String)
    (push_list : List PyVal) (uid : PyVal) (hm : uid ∈ push_list) :
    (send (pyStrip (pyStr uid)) = Except.ok () →
      Event.sendMsg (pyStrip (pyStr uid)) text ∈ dispatchAll send text push_list)
    ∧ (∀ e, send (pyStrip (pyStr uid)) = Except.error e →
      Event.logError ("定时推送失败，目标: " ++ pyStr uid ++ "，错误: " ++ e)
        ∈ dispatchAll send text push_list) := by
  induction push_list with
  | nil => exact absurd hm (List.not_mem_nil uid)
  | cons x rest ih =>
    rcases List.mem_cons.mp hm with h | h
    · subst h
      constructor
      · intro hok
        simp [dispatchAll, hok]
      · intro e herr
        simp [dispatchAll, herr]
    · have hrest := ih h
      constructor
      · intro hok
        have := hrest.1 hok
        simp only [dispatchAll]
        rw [List.cons_append]
        exact List.mem_cons_of_mem _ (List.mem_append_right _ this)
      · intro e herr
        have := hrest.2 e herr
        simp only [dispatchAll]
        rw [List.cons_append]
        exact List.mem_cons_of_mem _ (List.mem_append_right _ this)

/-- A sender that fails exactly on the second of three demo
recipients. -/
def demoSend : String → Except String Unit :=
  fun t => if t = "2" then Except.error "net down" else Except.ok ()

/-- The three demo recipients (the middle one configured as an
integer). -/
def demoRecipients : List PyVal :=
  [PyVal.str "g1", PyVal.int 2, PyVal.str "g3"]

/-- Claim C6 witness: with three recipients whose second send fails,
recipients 1 and 3 still receive the notice and the failure on
recipient 2 is logged with its identifier and cause. -/
theorem dispatch_isolation_instance :
    Event.sendMsg (pyStrip (pyStr (PyVal.str "g1"))) "hi"
      ∈ dispatchAll demoSend "hi" demoRecipients
    ∧ Event.logError ("定时推送失败，目标: " ++ pyStr (PyVal.int 2) ++ "，错误: " ++ "net down")
      ∈ dispatchAll demoSend "hi" demoRecipients
    ∧ Event.sendMsg (pyStrip (pyStr (PyVal.str "g3"))) "hi"
      ∈ dispatchAll demoSend "hi" demoRecipients :=
  ⟨(dispatch_isolation demoSend "hi" demoRecipients (PyVal.str "g1") (by decide)).1 (by rfl),
   (dispatch_isolation demoSend "hi" demoRecipients (PyVal.int 2) (by decide)).2
     "net down" (by rfl),
   (dispatch_isolation demoSend "hi" demoRecipients (PyVal.str "g3") (by decide)).1 (by rfl)⟩

/-- The denial log line emitted by the permission check before the
handler returns (main.py lines 138, 141, 146). -/
def gateEvents (current_id : String) : GateResult → List Event
  | GateResult.deniedEmptyWhitelist =>
    [Event.logWarn "[SteamStatus] 白名单模式下列表为空，所有指令将被拦截。请在配置中添加允许的群组 ID。"]
  | GateResult.deniedNotInWhitelist =>
    [Event.logInfo ("拦截到未授权群组 " ++ current_id ++ " 的指令请求 (不在白名单)")]
  | GateResult.deniedInBlacklist =>
    [Event.logInfo ("拦截到黑名单群组 " ++ current_id ++ " 的指令请求")]
  | GateResult.permitted => []

/-- The `steamstatus` handler `on_steam_status` (main.py lines
122-158): run the permission check; on denial return with only the log
line; on success yield the acknowledgment, probe every target URL
(`probe` gives each URL's collapsed verdict), and yield the report with
one line per endpoint in table order.  The result is the reply list,
the (untouched) `last_status` mapping, and the emitted events. -/
def on_steam_status (mode : PyVal) (raw_groups : List PyVal) (origin : PyVal)
    (probe : String → Bool) (last_status : String → Bool) :
    List String × (String → Bool) × List Event :=
  let current_id := pyStr origin
  match gateResult mode raw_groups origin with
  | GateResult.permitted =>
    let names := targets.map Prod.fst
    let urls := targets.map Prod.snd
    let statuses := urls.map probe
    let results := (names.zip statuses).map
      (fun p => p.1 ++ ": " ++ (if p.2 then "✅ 正常" else "❌ 异常"))
    (["正在检测 Steam 服务状态，请稍候...",
      "📊 Steam 当前状态报告：\n" ++ String.intercalate "\n" results],
     last_status,
     urls.map Event.probe)
  | r => ([], last_status, gateEvents current_id r)

/-- Claim C8: a denied request is silently dropped — the handler yields
zero reply messages and its only output is a single log line. -/
theorem query_denied_silent (mode : PyVal) (raw_groups : List PyVal) (origin : PyVal)
    (probe : String → Bool) (last_status : String → Bool)
    (hd : gateResult mode raw_groups origin ≠ GateResult.permitted) :
    (on_steam_status mode raw_groups origin probe last_status).1 = []
    ∧ ∃ ev, (on_steam_status mode raw_groups origin probe last_status).2.2 = [ev]
        ∧ isLogEvent ev = true := by
  cases hg : gateResult mode raw_groups origin with
  | permitted => exact absurd hg hd
  | deniedEmptyWhitelist =>
    exact ⟨by simp [on_steam_status, hg],
      Event.logWarn "[SteamStatus] 白名单模式下列表为空，所有指令将被拦截。请在配置中添加允许的群组 ID。",
      by simp [on_steam_status, hg, gateEvents], rfl⟩
  | deniedNotInWhitelist =>
    exact ⟨by simp [on_steam_status, hg],
      Event.logInfo ("拦截到未授权群组 " ++ pyStr origin ++ " 的指令请求 (不在白名单)"),
      by simp [on_steam_status, hg, gateEvents], rfl⟩
  | deniedInBlacklist =>
    exact ⟨by simp [on_steam_status, hg],
      Event.logInfo ("拦截到黑名单群组 " ++ pyStr origin ++ " 的指令请求"),
      by simp [on_steam_status, hg, gateEvents], rfl⟩

/-- Claim C8 witness: an identity denied by an empty whitelist gets no
reply at all, only a log entry. -/
theorem query_denied_silent_instance :
    (on_steam_status (PyVal.str "whitelist") [] (PyVal.str "u1")
      (fun _ => true) initialStatus).1 = []
    ∧ ∃ ev, (on_steam_status (PyVal.str "whitelist") [] (PyVal.str "u1")
        (fun _ => true) initialStatus).2.2 = [ev] ∧ isLogEvent ev = true :=
  query_denied_silent (PyVal.str "whitelist") [] (PyVal.str "u1")
    (fun _ => true) initialStatus (by decide)

/-- Claim C9: a permitted manual query leaves the monitor loop's
`last_status` mapping exactly as it was — it yields the acknowledgment
and the report (two replies) and probes every configured endpoint URL,
but reads and writes none of the change-tracking state, so a subsequent
monitor tick diffs against an unchanged mapping. -/
theorem query_preserves_last_status (mode : PyVal) (raw_groups : List PyVal)
    (origin : PyVal) (probe : String → Bool) (last_status : String → Bool)
    (hp : gateResult mode raw_groups origin = GateResult.permitted) :
    (on_steam_status mode raw_groups origin probe last_status).2.1 = last_status
    ∧ (on_steam_status mode raw_groups origin probe last_status).1.length = 2
    ∧ (∀ url ∈ targetUrls,
        Event.probe url ∈ (on_steam_status mode raw_groups origin probe last_status).2.2)
    ∧ (∀ ps, diffTick ((on_steam_status mode raw_groups origin probe last_status).2.1) ps
        = diffTick last_status ps) := by
  refine ⟨?_, ?_, ?_, ?_⟩
  · simp [on_steam_status, hp]
  · simp [on_steam_status, hp]
  · intro url hu
    simp only [on_steam_status, hp]
    exact List.mem_map_of_mem Event.probe hu
  · intro ps
    simp [on_steam_status, hp]

/-- Claim C9 witness: a permitted query (blacklist mode with an empty
list) keeps the recorded status mapping untouched while probing all
three endpoints and replying twice. -/
theorem query_preserves_last_status_instance :
    (on_steam_status (PyVal.str "blacklist") [] (PyVal.str "u1")
      (fun _ => false) initialStatus).2.1 = initialStatus
    ∧ (on_steam_status (PyVal.str "blacklist") [] (PyVal.str "u1")
        (fun _ => false) initialStatus).1.length = 2
    ∧ (∀ url ∈ targetUrls,
        Event.probe url ∈ (on_steam_status (PyVal.str "blacklist") [] (PyVal.str "u1")
          (fun _ => false) initialStatus).2.2)
    ∧ (∀ ps, diffTick ((on_steam_status (PyVal.str "blacklist") [] (PyVal.str "u1")
          (fun _ => false) initialStatus).2.1) ps
        = diffTick initialStatus ps) :=
  query_preserves_last_status (PyVal.str "blacklist") [] (PyVal.str "u1")
    (fun _ => false) initialStatus (by decide)

/-- The inactive-condition log line (main.py line 114). -/
def inactiveLogEvent : Event :=
  Event.logInfo "[SteamStatus] 自动监控未满足执行条件（开关关闭或无推送目标）"

/-- The Python locals of `monitor_loop` that survive across iterations
of the `while True` loop: `interval` (a plain local, *unbound* until its
first assignment on line 74 — modelled as `Option`), the
`has_logged_disabled` flag, and the `self.last_status` mapping. -/
structure LoopState where
  interval? : Option Nat
  hasLoggedDisabled : Bool
  last_status : String → Bool

/-- State on entry to the first iteration (main.py lines 18, 65). -/
def initLoopState : LoopState :=
  { interval? := none, hasLoggedDisabled := false, last_status := initialStatus }

/-- The external world of one tick: the three config reads (each may
raise), an optional error raised inside the probe-and-notify section,
the per-endpoint probe verdicts, and the notifier. -/
structure TickEnv where
  autoCheck : Except String Bool
  pushGroups : Except String (List PyVal)
  checkInterval : Except String Nat
  bodyErr : Option String
  verdicts : String → Bool
  send : String → Except String Unit

/-- Rendering of one change entry as appended to `changes`
(main.py lines 90-91). -/
def renderChange (p : String × Bool) : String :=
  p.1 ++ ": " ++ (if p.2 then "✅ 已恢复正常" else "❌ 出现访问故障")

/-- The `try:` block of one `monitor_loop` iteration (main.py lines
68-118): read the three config values in order (a raising read aborts
the tick and is caught, leaving later locals unassigned); when the
master switch is on and the push list non-empty, reset the
inactive-logged flag, probe all targets, diff against `last_status`,
and if anything changed dispatch the combined notice to every
recipient; otherwise log the inactive condition at most once.  Any
raised error is caught by the `except` clause, which only logs. -/
def tryBody (st : LoopState) (env : TickEnv) : LoopState × List Event :=
  match env.autoCheck with
  | Except.error e => (st, [Event.logError ("Steam 监控循环发生错误: " ++ e)])
  | Except.ok is_master_on =>
    match env.pushGroups with
    | Except.error e => (st, [Event.logError ("Steam 监控循环发生错误: " ++ e)])
    | Except.ok push_list =>
      match env.checkInterval with
      | Except.error e => (st, [Event.logError ("Steam 监控循环发生错误: " ++ e)])
      | Except.ok interval =>
        let st1 := { st with interval? := some interval }
        if is_master_on && !push_list.isEmpty then
          let st2 := { st1 with hasLoggedDisabled := false }
          match env.bodyErr with
          | some e => (st2, [Event.logError ("Steam 监控循环发生错误: " ++ e)])
          | none =>
            let probeEvs := targetUrls.map Event.probe
            let d := diffTick st2.last_status (targetPairs env.verdicts)
            let st3 := { st2 with last_status := d.2 }
            if d.1.isEmpty then (st3, probeEvs)
            else
              let notice_text := "⚠️ Steam 服务状态变更通知：\n"
                ++ String.intercalate "\n" (d.1.map renderChange)
              (st3, probeEvs
                ++ [Event.logInfo ("[SteamStatus] 状态发生变更，准备推送: "
                      ++ String.intercalate ", " (d.1.map renderChange))]
                ++ dispatchAll env.send notice_text push_list)
        else
          if !st1.hasLoggedDisabled then
            ({ st1 with hasLoggedDisabled := true }, [inactiveLogEvent])
          else (st1, [])

/-- One full iteration of `monitor_loop`: the `try/except` body, then
`await asyncio.sleep(interval * 60)` (main.py line 120).  The sleep
sits *outside* the `try`; evaluating it when the local `interval` was
never assigned raises `UnboundLocalError`, which nothing catches, so
the loop terminates — the returned flag is `true` iff the iteration
reaches the sleep and the loop survives to the next tick. -/
def monitorTick (st : LoopState) (env : TickEnv) : LoopState × List Event × Bool :=
  let r := tryBody st env
  match r.1.interval? with
  | none => (r.1, r.2, false)
  | some _ => (r.1, r.2, true)

/-- Run `monitor_loop` over a list of tick environments; stops early
(with the survival flag `false`) when an iteration dies at the sleep.
Returns the final state, the per-executed-tick event lists, and whether
the loop is still alive. -/
def runLoop (st : LoopState) : List TickEnv → LoopState × List (List Event) × Bool
  | [] => (st, [], true)
  | env :: rest =>
    let r := monitorTick st env
    if r.2.2 then
      let rr := runLoop r.1 rest
      (rr.1, r.2.1 :: rr.2.1, rr.2.2)
    else (r.1, [r.2.1], false)

/-- A first tick whose `auto_check` config read raises. -/
def cfgFailEnv : TickEnv :=
  { autoCheck := Except.error "config read failed", pushGroups := Except.ok [],
    checkInterval := Except.ok 1, bodyErr := none,
    verdicts := fun _ => true, send := fun _ => Except.ok () }

/-- An active tick in which the probe-and-notify section itself raises
(after `interval` was assigned). -/
def bodyErrEnv : TickEnv :=
  { autoCheck := Except.ok true, pushGroups := Except.ok [PyVal.str "g1"],
    checkInterval := Except.ok 1, bodyErr := some "probe infrastructure error",
    verdicts := fun _ => true, send := fun _ => Except.ok () }

/-- Claim C5 (refuting the first-tick case): a config read failure on
the very first tick is caught and logged, but the loop then dies at the
sleep because the local `interval` was never assigned — it does not
proceed to the next Waiting sleep, and no further tick runs.  Errors
raised after `interval` is assigned (in the probe-and-notify body, or a
config read failure on a later tick) are survived as the claim says. -/
theorem monitor_loop_tick_boundary :
    (monitorTick initLoopState cfgFailEnv).2.2 = false
    ∧ (runLoop initLoopState [cfgFailEnv, bodyErrEnv]).2.2 = false
    ∧ (runLoop initLoopState [cfgFailEnv, bodyErrEnv]).2.1.length = 1
    ∧ (monitorTick initLoopState bodyErrEnv).2.2 = true
    ∧ (runLoop initLoopState [bodyErrEnv, cfgFailEnv]).2.2 = true := by
  exact ⟨rfl, rfl, rfl, rfl, rfl⟩

/-- A tick configuration whose three config reads succeed and whose
body raises nothing: the regime claims C7 speaks about. -/
structure TickCfg where
  masterOn : Bool
  push : List PyVal
  interval : Nat
  verdicts : String → Bool
  send : String → Except String Unit

/-- The tick environment of a non-raising tick configuration. -/
def okEnv (c : TickCfg) : TickEnv :=
  { autoCheck := Except.ok c.masterOn, pushGroups := Except.ok c.push,
    checkInterval := Except.ok c.interval, bodyErr := none,
    verdicts := c.verdicts, send := c.send }

/-- `is_master_on and push_list` (main.py line 77). -/
def isActiveCfg (c : TickCfg) : Bool := c.masterOn && !c.push.isEmpty

/-- Default tick configuration (inactive: switch off, no push
targets). -/
def dfltCfg : TickCfg :=
  { masterOn := false, push := [], interval := 1,
    verdicts := fun _ => true, send := fun _ => Except.ok () }

/-- The loop state after tick `k` of a non-raising run. -/
def stepCfg (st : LoopState) (c : TickCfg) : LoopState := (monitorTick st (okEnv c)).1

/-- The loop state on entry to tick `k` (ticks `0..k-1` executed). -/
def stateAt (cfgs : List TickCfg) : Nat → LoopState
  | 0 => initLoopState
  | k + 1 => stepCfg (stateAt cfgs k) (cfgs.getD k dfltCfg)

/-- The events emitted by tick `k`. -/
def eventsAt (cfgs : List TickCfg) (k : Nat) : List Event :=
  (monitorTick (stateAt cfgs k) (okEnv (cfgs.getD k dfltCfg))).2.1

/-- On an inactive tick the loop emits no probe and no message: it logs
the inactive line exactly when the flag was clear, and the flag is set
afterwards in either case.  The recorded status mapping is untouched. -/
theorem tick_inactive (st : LoopState) (c : TickCfg) (h : isActiveCfg c = false) :
    (monitorTick st (okEnv c)).2.1
      = (if st.hasLoggedDisabled then [] else [inactiveLogEvent])
    ∧ (monitorTick st (okEnv c)).1.hasLoggedDisabled = true
    ∧ (monitorTick st (okEnv c)).1.last_status = st.last_status := by
  rw [isActiveCfg] at h
  cases hlog : st.hasLoggedDisabled with
  | false => refine ⟨?_, ?_, ?_⟩ <;> simp [monitorTick, tryBody, okEnv, h, hlog]
  | true => refine ⟨?_, ?_, ?_⟩ <;> simp [monitorTick, tryBody, okEnv, h, hlog]

/-- On an active tick the inactive-logged flag is reset to `false`. -/
theorem tick_active_flag (st : LoopState) (c : TickCfg) (h : isActiveCfg c = true) :
    (monitorTick st (okEnv c)).1.hasLoggedDisabled = false := by
  rw [isActiveCfg] at h
  by_cases hch : (diffTick st.last_status (targetPairs c.verdicts)).1.isEmpty
  · simp [monitorTick, tryBody, okEnv, h, hch]
  · simp [monitorTick, tryBody, okEnv, h, hch]

/-- Claim C7: on every tick where the master switch is off or the push
list is empty, no endpoint is probed and no notice is dispatched (all
events are log lines); after an inactive tick the once-logged flag is
set (and an active tick resets it); and within a contiguous span of
inactive ticks the inactive condition is logged at most once — any
inactive tick whose predecessors back to some inactive tick are all
inactive emits no inactive log at all. -/
theorem inactive_tick_quiet (cfgs : List TickCfg) (k : Nat) (_hk : k < cfgs.length)
    (hin : isActiveCfg (cfgs.getD k dfltCfg) = false) :
    (∀ ev ∈ eventsAt cfgs k, isLogEvent ev = true)
    ∧ (stateAt cfgs (k + 1)).hasLoggedDisabled = true
    ∧ (∀ k3, isActiveCfg (cfgs.getD k3 dfltCfg) = true →
        (stateAt cfgs (k3 + 1)).hasLoggedDisabled = false)
    ∧ (∀ k2, k < k2 → k2 < cfgs.length →
        (∀ j, k ≤ j → j ≤ k2 → isActiveCfg (cfgs.getD j dfltCfg) = false) →
        inactiveLogEvent ∉ eventsAt cfgs k2) := by
  refine ⟨?_, ?_, ?_, ?_⟩
  · intro ev hev
    rw [eventsAt, (tick_inactive (stateAt cfgs k) _ hin).1] at hev
    cases hlog : (stateAt cfgs k).hasLoggedDisabled with
    | false =>
      rw [hlog] at hev
      have h : ev = inactiveLogEvent := by simpa using hev
      rw [h]
      rfl
    | true =>
      rw [hlog] at hev
      simp at hev
  · exact (tick_inactive (stateAt cfgs k) _ hin).2.1
  · intro k3 hact
    exact tick_active_flag (stateAt cfgs k3) _ hact
  · intro k2 hlt hk2 hspan
    obtain ⟨j, rfl⟩ : ∃ j, k2 = j + 1 := ⟨k2 - 1, by omega⟩
    have hjin : isActiveCfg (cfgs.getD j dfltCfg) = false :=
      hspan j (by omega) (by omega)
    have hflag : (stateAt cfgs (j + 1)).hasLoggedDisabled = true :=
      (tick_inactive (stateAt cfgs j) _ hjin).2.1
    have hk2in : isActiveCfg (cfgs.getD (j + 1) dfltCfg) = false :=
      hspan (j + 1) (by omega) (by omega)
    intro hmem
    rw [eventsAt, (tick_inactive (stateAt cfgs (j + 1)) _ hk2in).1, hflag] at hmem
    simp at hmem

/-- Two consecutive inactive demo ticks. -/
def demoCfgs : List TickCfg := [dfltCfg, dfltCfg]

/-- Claim C7 witness: with two consecutive inactive ticks, the second
tick does not log the inactive condition again. -/
theorem inactive_tick_quiet_instance :
    inactiveLogEvent ∉ eventsAt demoCfgs 1 :=
  (inactive_tick_quiet demoCfgs 0 (by decide) (by rfl)).2.2.2 1 (by decide) (by decide)
    (by
      intro j h0 h1
      have hj : j = 0 ∨ j = 1 := by omega
      rcases hj with h | h
      · rw [h]; rfl
      · rw [h]; rfl)

end SteamStatus
